import Mathlib

/-!
Verification development for the ceracoder adaptive-bitrate (ABR) core.

The C sources are shallowly embedded: C ints (int, int64_t, uint64_t used as
millisecond timestamps) become Lean Int, C doubles become exact rationals Rat,
and every cast from double to int becomes truncation toward zero (ctrunc).
Rational arithmetic is written through the kernel-computable wrappers qadd,
qsub, qmul, qdiv below (definitionally equal to the field operations on Rat,
see the bridge lemmas) so that concrete runs of the controller can be decided
by the kernel.
-/

namespace Ceracoder

/-- Truncation toward zero of a rational, the semantics of a C cast from
double to a signed integer type. Since den is positive, tdiv of num by den
is exactly truncation toward zero. -/
def ctrunc (q : Rat) : Int := q.num.tdiv (q.den : Int)

/-- Kernel-computable addition on Rat. -/
def qadd (a b : Rat) : Rat := mkRat (a.num * (b.den : Int) + b.num * (a.den : Int)) (a.den * b.den)

/-- Kernel-computable negation on Rat. -/
def qneg (a : Rat) : Rat := mkRat (-a.num) a.den

/-- Kernel-computable subtraction on Rat. -/
def qsub (a b : Rat) : Rat := qadd a (qneg b)

/-- Kernel-computable multiplication on Rat. -/
def qmul (a b : Rat) : Rat := mkRat (a.num * b.num) (a.den * b.den)

/-- Kernel-computable inverse on Rat (inverse of zero is zero, matching Rat). -/
def qinv (a : Rat) : Rat := Rat.divInt (a.den : Int) a.num

/-- Kernel-computable division on Rat. -/
def qdiv (a b : Rat) : Rat := qmul a (qinv b)

/-- The C conditional expression MAX(a, b) = ((a) > (b) ? (a) : (b)) on doubles. -/
def qmax (a b : Rat) : Rat := if b < a then a else b

/-- The C conditional expression MIN(a, b) on doubles. -/
def qmin (a b : Rat) : Rat := if a < b then a else b

/-- The C conditional expression MAX(a, b) on integers. -/
def iMAX (a b : Int) : Int := if b < a then a else b

/-- The C conditional expression MIN(a, b) on integers. -/
def iMIN (a b : Int) : Int := if a < b then a else b

/-- The min_max(a, l, h) clamp macro: MAX(MIN(a, h), l). -/
def min_max (a l h : Int) : Int := iMAX (iMIN a h) l

/-- Rounding down to a multiple of 100 kbps, the C expression
n / (100*1000) * (100*1000) with truncating integer division. -/
def rdq (n : Int) : Int := n.tdiv 100000 * 100000

/- Bridge lemmas: the computable wrappers agree with the Rat field structure. -/

theorem qadd_eq (a b : Rat) : qadd a b = a + b := by
  rw [qadd, Rat.mkRat_eq_divInt, Rat.divInt_eq_div]
  have ha : ((a.den : Int) : Rat) ≠ 0 := by
    exact_mod_cast (Nat.cast_ne_zero (R := Rat)).2 a.den_nz
  have hb : ((b.den : Int) : Rat) ≠ 0 := by
    exact_mod_cast (Nat.cast_ne_zero (R := Rat)).2 b.den_nz
  conv_rhs => rw [← Rat.num_div_den a, ← Rat.num_div_den b]
  push_cast
  rw [div_add_div _ _ (by exact_mod_cast ha) (by exact_mod_cast hb)]
  ring_nf

theorem qneg_eq (a : Rat) : qneg a = -a := by
  rw [qneg, Rat.mkRat_eq_divInt, Rat.divInt_eq_div]
  conv_rhs => rw [← Rat.num_div_den a]
  push_cast
  ring

theorem qsub_eq (a b : Rat) : qsub a b = a - b := by
  rw [qsub, qadd_eq, qneg_eq, sub_eq_add_neg]

theorem qmul_eq (a b : Rat) : qmul a b = a * b := by
  rw [qmul, Rat.mkRat_eq_divInt, Rat.divInt_eq_div]
  conv_rhs => rw [← Rat.num_div_den a, ← Rat.num_div_den b]
  push_cast
  rw [div_mul_div_comm]

theorem qinv_eq (a : Rat) : qinv a = a⁻¹ := by
  rw [qinv, Rat.divInt_eq_div]
  rcases eq_or_ne a 0 with h | h
  · subst h; simp
  · have hnum : (a.num : Rat) ≠ 0 := by
      exact_mod_cast Rat.num_ne_zero.2 h
    conv_rhs => rw [← Rat.num_div_den a]
    rw [inv_div]
    push_cast
    rfl

theorem qdiv_eq (a b : Rat) : qdiv a b = a / b := by
  rw [qdiv, qmul_eq, qinv_eq, div_eq_mul_inv]

theorem qmax_eq (a b : Rat) : qmax a b = max a b := by
  rcases le_or_lt a b with h | h
  · rw [qmax, if_neg (not_lt.2 h), max_def, if_pos h]
  · rw [qmax, if_pos h, max_def, if_neg (not_le.2 h)]

theorem qmin_eq (a b : Rat) : qmin a b = min a b := by
  rcases lt_trichotomy a b with h | h | h
  · rw [qmin, if_pos h, min_def, if_pos h.le]
  · subst h; rw [qmin, min_self, if_neg (lt_irrefl a)]
  · rw [qmin, if_neg (not_lt.2 h.le), min_def, if_neg (not_le.2 h)]

theorem iMAX_eq (a b : Int) : iMAX a b = max a b := by
  rcases le_or_lt a b with h | h
  · rw [iMAX, if_neg (not_lt.2 h), max_def, if_pos h]
  · rw [iMAX, if_pos h, max_def, if_neg (not_le.2 h)]

theorem iMIN_eq (a b : Int) : iMIN a b = min a b := by
  rcases lt_trichotomy a b with h | h | h
  · rw [iMIN, if_pos h, min_def, if_pos h.le]
  · subst h; rw [iMIN, min_self, if_neg (lt_irrefl a)]
  · rw [iMIN, if_neg (not_lt.2 h.le), min_def, if_neg (not_le.2 h)]

theorem min_max_le (a l h : Int) (hlh : l ≤ h) : l ≤ min_max a l h ∧ min_max a l h ≤ h := by
  rw [min_max, iMAX_eq, iMIN_eq]
  constructor
  · exact le_max_right _ _
  · exact max_le (min_le_right _ _) hlh

/- Facts about ctrunc on nonnegative rationals. -/

theorem ctrunc_eq_floor (q : Rat) (hq : 0 ≤ q) : ctrunc q = ⌊q⌋ := by
  rw [ctrunc, Rat.floor_def]
  exact Int.tdiv_eq_ediv (Rat.num_nonneg.2 hq) (by positivity)

theorem ctrunc_le (q : Rat) (hq : 0 ≤ q) : (ctrunc q : Rat) ≤ q := by
  rw [ctrunc_eq_floor q hq]; exact Int.floor_le q

theorem lt_ctrunc_add_one (q : Rat) (hq : 0 ≤ q) : q < (ctrunc q : Rat) + 1 := by
  rw [ctrunc_eq_floor q hq]; exact_mod_cast Int.lt_floor_add_one q

theorem ctrunc_nonneg (q : Rat) (hq : 0 ≤ q) : 0 ≤ ctrunc q := by
  rw [ctrunc_eq_floor q hq]; exact Int.floor_nonneg.2 hq

/- Facts about the 100 kbps rounding on nonnegative integers. -/

theorem rdq_dvd (n : Int) : (100000 : Int) ∣ rdq n := ⟨n.tdiv 100000, mul_comm _ _⟩

theorem rdq_eq_sub_emod (n : Int) (hn : 0 ≤ n) : rdq n = n - n % 100000 := by
  rw [rdq, Int.tdiv_eq_ediv hn (by norm_num)]
  omega

theorem rdq_le_self (n : Int) (hn : 0 ≤ n) : rdq n ≤ n := by
  rw [rdq_eq_sub_emod n hn]
  have := Int.emod_nonneg n (show (100000 : Int) ≠ 0 by norm_num)
  omega

theorem lt_rdq_add (n : Int) (hn : 0 ≤ n) : n - 100000 < rdq n := by
  rw [rdq_eq_sub_emod n hn]
  have := Int.emod_lt_of_pos n (show (0 : Int) < 100000 by norm_num)
  omega

theorem rdq_mono (m n : Int) (hm : 0 ≤ m) (hmn : m ≤ n) : rdq m ≤ rdq n := by
  rw [rdq, rdq, Int.tdiv_eq_ediv hm (by norm_num), Int.tdiv_eq_ediv (le_trans hm hmn) (by norm_num)]
  have := Int.ediv_le_ediv (show (0 : Int) < 100000 by norm_num) hmn
  omega

theorem rdq_nonneg (n : Int) (hn : 0 ≤ n) : 0 ≤ rdq n := by
  have h := rdq_mono 0 n le_rfl hn
  simpa [rdq] using h

/-!
Data model, from src/src/balancer.h and src/config.h.
-/

/-- Algorithm configuration passed to init, from BalancerConfig in src/src/balancer.h. -/
structure BalancerConfig where
  min_bitrate : Int
  max_bitrate : Int
  srt_latency : Int
  srt_pkt_size : Int
  adaptive_incr_step : Int
  adaptive_decr_step : Int
  adaptive_incr_interval : Int
  adaptive_decr_interval : Int
  aimd_incr_step : Int
  aimd_decr_mult : Rat
  aimd_incr_interval : Int
  aimd_decr_interval : Int
deriving DecidableEq

/-- Per-tick telemetry sample, from BalancerInput in src/src/balancer.h. -/
structure BalancerInput where
  buffer_size : Int
  rtt : Rat
  send_rate_mbps : Rat
  timestamp : Int
  pkt_loss_total : Int
  pkt_retrans_total : Int
deriving DecidableEq

/-- Per-tick decision record, from BalancerOutput in src/src/balancer.h. -/
structure BalancerOutput where
  new_bitrate : Int
  throughput : Rat
  rtt : Int
  rtt_th_min : Int
  rtt_th_max : Int
  bs : Int
  bs_th1 : Int
  bs_th2 : Int
  bs_th3 : Int
deriving DecidableEq

/-- Adaptive tuning section of the loaded configuration, from AdaptiveConfig in src/config.h. -/
structure AdaptiveConfig where
  incr_step : Int
  decr_step : Int
  incr_interval : Int
  decr_interval : Int
  loss_threshold : Rat
deriving DecidableEq

/-- AIMD tuning section of the loaded configuration, from AimdConfig in src/config.h. -/
structure AimdConfig where
  incr_step : Int
  decr_mult : Rat
  incr_interval : Int
  decr_interval : Int
deriving DecidableEq

/-- Loaded configuration carrier, from BelacoderConfig in src/config.h. -/
structure BelacoderConfig where
  min_bitrate : Int
  max_bitrate : Int
  balancer : String
  srt_latency : Int
  stream_id : String
  adaptive : AdaptiveConfig
  aimd : AimdConfig
deriving DecidableEq

/-- Kbps to bps conversion, config_bitrate_bps in src/config.h. -/
def config_bitrate_bps (kbps : Int) : Int := kbps * 1000

/-- Defaults, config_init_defaults in src/config.c. -/
def config_init_defaults : BelacoderConfig :=
  { min_bitrate := 300
    max_bitrate := 6000
    balancer := "adaptive"
    srt_latency := 2000
    stream_id := ""
    adaptive :=
      { incr_step := 30, decr_step := 100, incr_interval := 500, decr_interval := 200
        loss_threshold := mkRat 1 2 }
    aimd :=
      { incr_step := 50, decr_mult := mkRat 3 4, incr_interval := 500, decr_interval := 200 } }

/-!
Adaptive bitrate controller, from src/src/bitrate_control.c
(constants from src/bitrate_control.h and the defines in the .c file).
-/

def BITRATE_INCR_INT : Int := 500
def BITRATE_DECR_INT : Int := 200
def BITRATE_DECR_FAST_INT : Int := 250
def BITRATE_INCR_MIN : Int := 30000
def BITRATE_INCR_SCALE : Int := 30
def BITRATE_DECR_MIN : Int := 100000
def BITRATE_DECR_SCALE : Int := 10
def EMA_SLOW : Rat := mkRat 99 100
def EMA_FAST : Rat := mkRat 1 100
def EMA_RTT_DELTA : Rat := mkRat 4 5
def EMA_RTT_DELTA_NEW : Rat := mkRat 1 5
def EMA_THROUGHPUT : Rat := mkRat 97 100
def EMA_THROUGHPUT_NEW : Rat := mkRat 3 100
def RTT_MIN_DRIFT : Rat := mkRat 1001 1000
def RTT_IGNORE_VALUE : Int := 100
def RTT_INITIAL : Int := 300
def RTT_MIN_INITIAL : Rat := 200
def BS_TH3_MULT : Int := 4
def BS_TH2_JITTER_MULT : Rat := 3
def BS_TH1_JITTER_MULT : Rat := mkRat 5 2
def BS_TH_MIN : Int := 50
def RTT_JITTER_MULT : Int := 4
def RTT_AVG_PERCENT : Int := 15
def RTT_STABLE_DELTA : Rat := mkRat 1 100
def RTT_MIN_JITTER : Int := 1
def LOSS_RATE_THRESHOLD : Rat := mkRat 1 2
def EMA_LOSS : Rat := mkRat 9 10
def EMA_LOSS_NEW : Rat := mkRat 1 10

/-- State of the adaptive controller, from BitrateContext in src/src/bitrate_control.c
(the struct layout with packet-loss fields is taken from the .c file, which reads and
writes prev_pkt_loss, prev_pkt_retrans and loss_rate). -/
structure BitrateContext where
  min_bitrate : Int
  max_bitrate : Int
  srt_latency : Int
  srt_pkt_size : Int
  incr_step : Int
  decr_step : Int
  incr_interval : Int
  decr_interval : Int
  decr_fast_interval : Int
  cur_bitrate : Int
  bs_avg : Rat
  bs_jitter : Rat
  prev_bs : Int
  rtt_avg : Rat
  rtt_min : Rat
  rtt_jitter : Rat
  rtt_avg_delta : Rat
  prev_rtt : Int
  throughput : Rat
  prev_pkt_loss : Int
  prev_pkt_retrans : Int
  loss_rate : Rat
  next_bitrate_incr : Int
  next_bitrate_decr : Int
deriving DecidableEq

/-- Initialization, bitrate_context_init in src/src/bitrate_control.c. -/
def bitrate_context_init (min_br max_br latency pkt_size incr_step decr_step
    incr_interval decr_interval : Int) : BitrateContext :=
  { min_bitrate := min_br
    max_bitrate := max_br
    srt_latency := latency
    srt_pkt_size := pkt_size
    incr_step := if 0 < incr_step then incr_step else BITRATE_INCR_MIN
    decr_step := if 0 < decr_step then decr_step else BITRATE_DECR_MIN
    incr_interval := if 0 < incr_interval then incr_interval else BITRATE_INCR_INT
    decr_interval := if 0 < decr_interval then decr_interval else BITRATE_DECR_INT
    decr_fast_interval := BITRATE_DECR_FAST_INT
    cur_bitrate := max_br
    bs_avg := 0
    bs_jitter := 0
    prev_bs := 0
    rtt_avg := 0
    rtt_min := RTT_MIN_INITIAL
    rtt_jitter := 0
    rtt_avg_delta := 0
    prev_rtt := RTT_INITIAL
    throughput := 0
    prev_pkt_loss := 0
    prev_pkt_retrans := 0
    loss_rate := 0
    next_bitrate_incr := 0
    next_bitrate_decr := 0 }

/-- The filter section of bitrate_update (packet-loss tracking, buffer-size stats,
RTT stats, throughput average): everything the function mutates before computing
thresholds and the decision ladder. -/
def bitrate_update_filters (ctx : BitrateContext) (buffer_size : Int) (rtt : Rat)
    (send_rate_mbps : Rat) (pkt_loss_total pkt_retrans_total : Int) : BitrateContext :=
  let bs := buffer_size
  let rtt_int := ctrunc rtt
  let loss_delta := pkt_loss_total - ctx.prev_pkt_loss
  let retrans_delta := pkt_retrans_total - ctx.prev_pkt_retrans
  let loss_rate :=
    if 0 < loss_delta ∨ 0 < retrans_delta then
      qadd (qmul ctx.loss_rate EMA_LOSS) (qmul ((loss_delta + retrans_delta : Int) : Rat) EMA_LOSS_NEW)
    else
      qmul ctx.loss_rate EMA_LOSS
  let bs_avg := qadd (qmul ctx.bs_avg EMA_SLOW) (qmul ((bs : Int) : Rat) EMA_FAST)
  let bs_jitter0 := qmul EMA_SLOW ctx.bs_jitter
  let delta_bs := bs - ctx.prev_bs
  let bs_jitter := if bs_jitter0 < ((delta_bs : Int) : Rat) then ((delta_bs : Int) : Rat) else bs_jitter0
  let rtt_avg :=
    if ctx.rtt_avg = 0 then rtt else qadd (qmul ctx.rtt_avg EMA_SLOW) (qmul EMA_FAST rtt)
  let delta_rtt := qsub rtt ((ctx.prev_rtt : Int) : Rat)
  let rtt_avg_delta := qadd (qmul ctx.rtt_avg_delta EMA_RTT_DELTA) (qmul delta_rtt EMA_RTT_DELTA_NEW)
  let rtt_min0 := qmul ctx.rtt_min RTT_MIN_DRIFT
  let rtt_min :=
    if rtt_int ≠ RTT_IGNORE_VALUE ∧ rtt < rtt_min0 ∧ rtt_avg_delta < 1 then rtt else rtt_min0
  let rtt_jitter0 := qmul ctx.rtt_jitter EMA_SLOW
  let rtt_jitter := if rtt_jitter0 < delta_rtt then delta_rtt else rtt_jitter0
  let throughput :=
    qadd (qmul ctx.throughput EMA_THROUGHPUT)
      (qmul (qdiv (qmul send_rate_mbps 1000000) 1024) EMA_THROUGHPUT_NEW)
  { ctx with
    loss_rate := loss_rate
    prev_pkt_loss := pkt_loss_total
    prev_pkt_retrans := pkt_retrans_total
    bs_avg := bs_avg
    bs_jitter := bs_jitter
    prev_bs := bs
    rtt_avg := rtt_avg
    rtt_avg_delta := rtt_avg_delta
    prev_rtt := rtt_int
    rtt_min := rtt_min
    rtt_jitter := rtt_jitter
    throughput := throughput }

/-- Packet-loss congestion flag of bitrate_update, compared against the constant
LOSS_RATE_THRESHOLD define; the argument is the post-filter context. -/
def adaptive_loss_congested (c : BitrateContext) : Bool :=
  decide (LOSS_RATE_THRESHOLD < c.loss_rate)

/-- Heavy buffer threshold bs_th3 of bitrate_update (post-filter context). -/
def adaptive_bs_th3 (c : BitrateContext) : Int :=
  ctrunc (qmul (qadd c.bs_avg c.bs_jitter) ((BS_TH3_MULT : Int) : Rat))

/-- Medium buffer threshold bs_th2 of bitrate_update, capped by RTT_TO_BS at half
the configured latency (post-filter context). -/
def adaptive_bs_th2 (c : BitrateContext) : Int :=
  let raw := ctrunc (qmax ((BS_TH_MIN : Int) : Rat)
    (qadd c.bs_avg (qmax (qmul c.bs_jitter BS_TH2_JITTER_MULT) c.bs_avg)))
  iMIN raw (ctrunc (qdiv (qmul (qdiv c.throughput 8) ((c.srt_latency.tdiv 2 : Int) : Rat))
    ((c.srt_pkt_size : Int) : Rat)))

/-- Light buffer threshold bs_th1 of bitrate_update (post-filter context). -/
def adaptive_bs_th1 (c : BitrateContext) : Int :=
  ctrunc (qmax ((BS_TH_MIN : Int) : Rat) (qadd c.bs_avg (qmul c.bs_jitter BS_TH1_JITTER_MULT)))

/-- Upper RTT threshold rtt_th_max of bitrate_update (post-filter context). -/
def adaptive_rtt_th_max (c : BitrateContext) : Int :=
  ctrunc (qadd c.rtt_avg (qmax (qmul c.rtt_jitter ((RTT_JITTER_MULT : Int) : Rat))
    (qdiv (qmul c.rtt_avg ((RTT_AVG_PERCENT : Int) : Rat)) 100)))

/-- Lower RTT threshold rtt_th_min of bitrate_update (post-filter context). -/
def adaptive_rtt_th_min (c : BitrateContext) : Int :=
  ctrunc (qadd c.rtt_min (qmax ((RTT_MIN_JITTER : Int) : Rat) (qmul c.rtt_jitter 2)))

/-- The decision ladder of bitrate_update (emergency, heavy, light, grow, hold,
first match wins), evaluated on the post-filter context: returns
(bitrate before clamping, next_bitrate_incr, next_bitrate_decr). -/
def adaptive_decide (c : BitrateContext) (bs rtt_int timestamp : Int) : Int × Int × Int :=
  if c.cur_bitrate > c.min_bitrate ∧
      (rtt_int ≥ c.srt_latency.tdiv 3 ∨ bs > adaptive_bs_th3 c) then
    (c.min_bitrate, c.next_bitrate_incr, timestamp + c.decr_interval)
  else if timestamp > c.next_bitrate_decr ∧
      (rtt_int > c.srt_latency.tdiv 5 ∨ bs > adaptive_bs_th2 c ∨
        adaptive_loss_congested c = true) then
    (c.cur_bitrate - (c.decr_step + c.cur_bitrate.tdiv BITRATE_DECR_SCALE),
      c.next_bitrate_incr, timestamp + c.decr_fast_interval)
  else if timestamp > c.next_bitrate_decr ∧
      (rtt_int > adaptive_rtt_th_max c ∨ bs > adaptive_bs_th1 c) then
    (c.cur_bitrate - c.decr_step, c.next_bitrate_incr, timestamp + c.decr_interval)
  else if timestamp > c.next_bitrate_incr ∧ rtt_int < adaptive_rtt_th_min c ∧
      c.rtt_avg_delta < RTT_STABLE_DELTA ∧ ¬ adaptive_loss_congested c = true then
    (c.cur_bitrate + (c.incr_step + c.cur_bitrate.tdiv BITRATE_INCR_SCALE),
      timestamp + c.incr_interval, c.next_bitrate_decr)
  else
    (c.cur_bitrate, c.next_bitrate_incr, c.next_bitrate_decr)

/-- The per-tick update, bitrate_update in src/src/bitrate_control.c. Returns the
updated context together with the filled BitrateResult (the function also returns
the rounded bitrate, which equals the result field new_bitrate). -/
def bitrate_update (ctx : BitrateContext) (buffer_size : Int) (rtt : Rat)
    (send_rate_mbps : Rat) (timestamp : Int) (pkt_loss_total pkt_retrans_total : Int) :
    BitrateContext × BalancerOutput :=
  let bs := buffer_size
  let rtt_int := ctrunc rtt
  let c := bitrate_update_filters ctx buffer_size rtt send_rate_mbps pkt_loss_total pkt_retrans_total
  let bs_th3 := adaptive_bs_th3 c
  let bs_th2 := adaptive_bs_th2 c
  let bs_th1 := adaptive_bs_th1 c
  let rtt_th_max := adaptive_rtt_th_max c
  let rtt_th_min := adaptive_rtt_th_min c
  let decision := adaptive_decide c bs rtt_int timestamp
  let clamped := min_max decision.1 c.min_bitrate c.max_bitrate
  let rounded := rdq clamped
  ({ c with
      cur_bitrate := clamped
      next_bitrate_incr := decision.2.1
      next_bitrate_decr := decision.2.2 },
   { new_bitrate := rounded
     throughput := c.throughput
     rtt := rtt_int
     rtt_th_min := rtt_th_min
     rtt_th_max := rtt_th_max
     bs := bs
     bs_th1 := bs_th1
     bs_th2 := bs_th2
     bs_th3 := bs_th3 })

/-!
AIMD balancer, from src/src/core/balancer_aimd.c.
-/

def AIMD_DEF_INCR_RATE : Int := 50000
def AIMD_DEF_DECR_MULT : Rat := mkRat 3 4
def AIMD_DEF_INCR_INTERVAL : Int := 500
def AIMD_DEF_DECR_INTERVAL : Int := 200
def AIMD_RTT_MULT : Rat := mkRat 3 2
def AIMD_RTT_BASELINE_EMA : Rat := mkRat 19 20
def AIMD_BS_THRESHOLD : Int := 100

/-- AIMD state, from AimdState in src/src/core/balancer_aimd.c. -/
structure AimdState where
  min_bitrate : Int
  max_bitrate : Int
  cur_bitrate : Int
  srt_latency : Int
  incr_step : Int
  decr_mult : Rat
  incr_interval : Int
  decr_interval : Int
  rtt_baseline : Rat
  next_incr : Int
  next_decr : Int
deriving DecidableEq

/-- Initialization, aimd_init in src/src/core/balancer_aimd.c (allocation failure
is not modelled: the embedding is the successfully allocated state). -/
def aimd_init (config : BalancerConfig) : AimdState :=
  { min_bitrate := config.min_bitrate
    max_bitrate := config.max_bitrate
    cur_bitrate := config.max_bitrate
    srt_latency := config.srt_latency
    incr_step := if 0 < config.aimd_incr_step then config.aimd_incr_step else AIMD_DEF_INCR_RATE
    decr_mult := if 0 < config.aimd_decr_mult then config.aimd_decr_mult else AIMD_DEF_DECR_MULT
    incr_interval :=
      if 0 < config.aimd_incr_interval then config.aimd_incr_interval else AIMD_DEF_INCR_INTERVAL
    decr_interval :=
      if 0 < config.aimd_decr_interval then config.aimd_decr_interval else AIMD_DEF_DECR_INTERVAL
    rtt_baseline := 0
    next_incr := 0
    next_decr := 0 }

/-- RTT-baseline update at the top of aimd_step. -/
def aimd_baseline (st : AimdState) (rtt : Rat) : Rat :=
  if st.rtt_baseline = 0 then rtt
  else if rtt < st.rtt_baseline then rtt
  else qadd (qmul st.rtt_baseline AIMD_RTT_BASELINE_EMA)
    (qmul rtt (qsub 1 AIMD_RTT_BASELINE_EMA))

/-- Congestion RTT threshold of aimd_step, from the updated baseline. -/
def aimd_rtt_threshold (st : AimdState) (rtt : Rat) : Int :=
  ctrunc (qmul (aimd_baseline st rtt) AIMD_RTT_MULT)

/-- Congestion-detection phase of aimd_step: the emergency branch snaps the
bitrate to the minimum and pushes next_decr; returns
(bitrate, next_decr, congested flag). -/
def aimd_congestion (st : AimdState) (input : BalancerInput) : Int × Int × Bool :=
  if input.rtt ≥ ((st.srt_latency.tdiv 3 : Int) : Rat) then
    (st.min_bitrate, input.timestamp + st.decr_interval, true)
  else if input.rtt > ((aimd_rtt_threshold st input.rtt : Int) : Rat) ∨
      input.buffer_size > AIMD_BS_THRESHOLD then
    (st.cur_bitrate, st.next_decr, true)
  else
    (st.cur_bitrate, st.next_decr, false)

/-- Rate-adjustment phase of aimd_step (multiplicative decrease or additive
increase): returns (bitrate, next_decr, next_incr). -/
def aimd_adjust (st : AimdState) (input : BalancerInput) : Int × Int × Int :=
  let e := aimd_congestion st input
  if e.2.2 = true ∧ input.timestamp > e.2.1 then
    (ctrunc (qmul ((e.1 : Int) : Rat) st.decr_mult), input.timestamp + st.decr_interval,
      st.next_incr)
  else if e.2.2 = false ∧ input.timestamp > st.next_incr then
    (e.1 + st.incr_step, e.2.1, input.timestamp + st.incr_interval)
  else
    (e.1, e.2.1, st.next_incr)

/-- Per-tick update, aimd_step in src/src/core/balancer_aimd.c. -/
def aimd_step (st : AimdState) (input : BalancerInput) : AimdState × BalancerOutput :=
  let a := aimd_adjust st input
  let clamped := iMAX st.min_bitrate (iMIN st.max_bitrate a.1)
  let rounded := rdq clamped
  ({ st with
      cur_bitrate := clamped
      rtt_baseline := aimd_baseline st input.rtt
      next_decr := a.2.1
      next_incr := a.2.2 },
   { new_bitrate := rounded
     throughput := 0
     rtt := ctrunc input.rtt
     rtt_th_min := ctrunc (aimd_baseline st input.rtt)
     rtt_th_max := aimd_rtt_threshold st input.rtt
     bs := input.buffer_size
     bs_th1 := AIMD_BS_THRESHOLD
     bs_th2 := AIMD_BS_THRESHOLD
     bs_th3 := AIMD_BS_THRESHOLD })

/-!
Fixed balancer, from src/src/core/balancer_fixed.c.
-/

/-- Fixed state, from FixedState in src/src/core/balancer_fixed.c. -/
structure FixedState where
  fixed_bitrate : Int
deriving DecidableEq

/-- Initialization, fixed_init in src/src/core/balancer_fixed.c: the configured
maximum, rounded down to 100 kbps. -/
def fixed_init (config : BalancerConfig) : FixedState :=
  { fixed_bitrate := rdq config.max_bitrate }

/-- Per-tick update, fixed_step in src/src/core/balancer_fixed.c. -/
def fixed_step (st : FixedState) (input : BalancerInput) : FixedState × BalancerOutput :=
  (st,
   { new_bitrate := st.fixed_bitrate
     throughput := 0
     rtt := ctrunc input.rtt
     rtt_th_min := 0
     rtt_th_max := 0
     bs := input.buffer_size
     bs_th1 := 0
     bs_th2 := 0
     bs_th3 := 0 })

/-!
Adaptive balancer glue.
-/

/-- Modelled from the spec: the refactored tree's adaptive balancer glue file
(the balancer_adaptive.c that accompanies src/src/bitrate_control.c) is not in
the snapshot; per spec section 4.5 the Runner-composed bounds and adaptive
tunables are handed to the controller initializer, which is
bitrate_context_init of src/src/bitrate_control.c. -/
def adaptive_init (config : BalancerConfig) : BitrateContext :=
  bitrate_context_init config.min_bitrate config.max_bitrate config.srt_latency
    config.srt_pkt_size config.adaptive_incr_step config.adaptive_decr_step
    config.adaptive_incr_interval config.adaptive_decr_interval

/-- Modelled from the spec: the adaptive step delegates a BalancerInput to
bitrate_update of src/src/bitrate_control.c, which is in the snapshot. -/
def adaptive_step (ctx : BitrateContext) (input : BalancerInput) :
    BitrateContext × BalancerOutput :=
  bitrate_update ctx input.buffer_size input.rtt input.send_rate_mbps input.timestamp
    input.pkt_loss_total input.pkt_retrans_total

/-!
Algorithm registry. The find/default/list operations are embedded from
src/balancer_registry.c; the contents of the algorithms table for the
refactored tree are modelled from the spec (section 4.4), because the
refactored registry translation unit is not in the snapshot (the
balancer_registry.c that is present predates the fixed and aimd variants,
while the refactored tests exercise all three by name).
-/

/-- Identifier of a concrete algorithm implementation. -/
inductive AlgId where
  | adaptive
  | aimd
  | fixed
deriving DecidableEq

/-- An entry of the registry: name, human description and the implementation it
dispatches to, from BalancerAlgorithm in src/src/balancer.h. -/
structure BalancerAlgorithm where
  id : AlgId
  name : String
  description : String
deriving DecidableEq

/-- The adaptive algorithm definition (name from src/balancer_adaptive.c). -/
def balancer_adaptive : BalancerAlgorithm :=
  { id := AlgId.adaptive
    name := "adaptive"
    description := "RTT and buffer-based adaptive control (default)" }

/-- The fixed algorithm definition, from src/src/core/balancer_fixed.c. -/
def balancer_fixed : BalancerAlgorithm :=
  { id := AlgId.fixed
    name := "fixed"
    description := "Constant bitrate, no adaptation" }

/-- The aimd algorithm definition, from src/src/core/balancer_aimd.c. -/
def balancer_aimd : BalancerAlgorithm :=
  { id := AlgId.aimd
    name := "aimd"
    description := "Additive Increase Multiplicative Decrease (TCP-style)" }

/-- Modelled from the spec: the registry table of the refactored tree. Spec
section 4.4 fixes the default (first) entry to the adaptive algorithm and the
membership to exactly the three variants. -/
def algorithms : List BalancerAlgorithm := [balancer_adaptive, balancer_fixed, balancer_aimd]

/-- Lookup loop of balancer_find in src/balancer_registry.c, over an arbitrary
table: a NULL name returns NULL, otherwise the first entry whose name compares
equal by strcmp. -/
def balancer_find_in (algs : List BalancerAlgorithm) (name : Option String) :
    Option BalancerAlgorithm :=
  match name with
  | none => none
  | some n => algs.find? (fun a => a.name = n)

/-- balancer_find in src/balancer_registry.c. -/
def balancer_find (name : Option String) : Option BalancerAlgorithm :=
  balancer_find_in algorithms name

/-- balancer_get_default in src/balancer_registry.c: the first registry entry. -/
def balancer_get_default : Option BalancerAlgorithm := algorithms.head?

/-- balancer_list_all in src/balancer_registry.c. -/
def balancer_list_all : List BalancerAlgorithm := algorithms

/-!
Runner, from src/src/core/balancer_runner.c and src/src/core/balancer_runner.h.
-/

/-- The state owned by the runner for the selected algorithm. -/
inductive AlgState where
  | adaptive (ctx : BitrateContext)
  | aimd (st : AimdState)
  | fixed (st : FixedState)
deriving DecidableEq

/-- Dispatch of algo->init. -/
def algInit : AlgId → BalancerConfig → AlgState
  | AlgId.adaptive, config => AlgState.adaptive (adaptive_init config)
  | AlgId.aimd, config => AlgState.aimd (aimd_init config)
  | AlgId.fixed, config => AlgState.fixed (fixed_init config)

/-- Dispatch of algo->step. -/
def algStep : AlgState → BalancerInput → AlgState × BalancerOutput
  | AlgState.adaptive ctx, input =>
    let r := adaptive_step ctx input
    (AlgState.adaptive r.1, r.2)
  | AlgState.aimd st, input =>
    let r := aimd_step st input
    (AlgState.aimd r.1, r.2)
  | AlgState.fixed st, input =>
    let r := fixed_step st input
    (AlgState.fixed r.1, r.2)

/-- Runner state, from BalancerRunner in src/src/core/balancer_runner.h. -/
structure BalancerRunner where
  algo : BalancerAlgorithm
  config : BalancerConfig
  state : AlgState
deriving DecidableEq

/-- The BalancerConfig composition block of balancer_runner_init
(src/src/core/balancer_runner.c lines 45-61): bounds and per-algorithm
tunables are copied from the loaded configuration, kbps fields converted
to bps. -/
def balancer_runner_compose (cfg : BelacoderConfig) (srt_latency srt_pkt_size : Int) :
    BalancerConfig :=
  { min_bitrate := config_bitrate_bps cfg.min_bitrate
    max_bitrate := config_bitrate_bps cfg.max_bitrate
    srt_latency := srt_latency
    srt_pkt_size := srt_pkt_size
    adaptive_incr_step := config_bitrate_bps cfg.adaptive.incr_step
    adaptive_decr_step := config_bitrate_bps cfg.adaptive.decr_step
    adaptive_incr_interval := cfg.adaptive.incr_interval
    adaptive_decr_interval := cfg.adaptive.decr_interval
    aimd_incr_step := config_bitrate_bps cfg.aimd.incr_step
    aimd_decr_mult := cfg.aimd.decr_mult
    aimd_incr_interval := cfg.aimd.incr_interval
    aimd_decr_interval := cfg.aimd.decr_interval }

/-- balancer_runner_init in src/src/core/balancer_runner.c. A present but
unknown override fails (the C function returns -1); an unknown config name
falls back to the registry default. Allocation failure of the algorithm state
is not modelled. -/
def balancer_runner_init (cfg : BelacoderConfig) (algo_name_override : Option String)
    (srt_latency srt_pkt_size : Int) : Option BalancerRunner :=
  let algo_name : Option String :=
    match algo_name_override with
    | some n => some n
    | none => some cfg.balancer
  let found :=
    match balancer_find algo_name with
    | some a => some a
    | none =>
      match algo_name_override with
      | some _ => none
      | none => balancer_get_default
  match found with
  | none => none
  | some algo =>
    let config := balancer_runner_compose cfg srt_latency srt_pkt_size
    some { algo := algo, config := config, state := algInit algo.id config }

/-- balancer_runner_step in src/src/core/balancer_runner.c. -/
def balancer_runner_step (runner : BalancerRunner) (input : BalancerInput) :
    BalancerRunner × BalancerOutput :=
  let r := algStep runner.state input
  ({ runner with state := r.1 }, r.2)

/-- balancer_runner_update_bounds in src/src/core/balancer_runner.c: store the
new bounds and re-initialize the algorithm state from the updated config. -/
def balancer_runner_update_bounds (runner : BalancerRunner) (min_bitrate max_bitrate : Int) :
    BalancerRunner :=
  let config := { runner.config with min_bitrate := min_bitrate, max_bitrate := max_bitrate }
  { runner with config := config, state := algInit runner.algo.id config }

/-- balancer_runner_get_name in src/src/core/balancer_runner.c. -/
def balancer_runner_get_name (runner : BalancerRunner) : String := runner.algo.name

/-!
Run helpers: outputs and intermediate states of a sequence of step calls.
-/

/-- Decisions produced by stepping an algorithm state through a sample list. -/
def algOutputs : AlgState → List BalancerInput → List BalancerOutput
  | _, [] => []
  | st, i :: is =>
    let r := algStep st i
    r.2 :: algOutputs r.1 is

/-- Successive AIMD states along a sample list (state after each step). -/
def aimdStates : AimdState → List BalancerInput → List AimdState
  | _, [] => []
  | st, i :: is =>
    let st1 := (aimd_step st i).1
    st1 :: aimdStates st1 is

/-!
Legacy bitrate file parsing, from src/src/ceracoder.c (parse_long and
parse_bitrate). C strings are embedded as Lean Char lists; a NULL pointer is
identified with the empty list, which parse_long rejects the same way.
-/

/-- Whitespace recognized by strtol when skipping the leading segment
(the C isspace set). -/
def isSpaceB (c : Char) : Bool :=
  c = ' ' || c = '\t' || c = '\n' || c = '\x0b' || c = '\x0c' || c = '\r'

/-- Whitespace skipped by the trailing loop of parse_long in src/src/ceracoder.c
(only space, tab, newline and carriage return). -/
def isTrailSpaceB (c : Char) : Bool :=
  c = ' ' || c = '\t' || c = '\n' || c = '\r'

/-- Decimal digit test. -/
def isDigitB (c : Char) : Bool := decide ('0' ≤ c) && decide (c ≤ '9')

/-- Numeric value of a decimal digit string. -/
def digitsToNat (ds : List Char) : Nat :=
  ds.foldl (fun a c => a * 10 + (c.toNat - 48)) 0

/-- Sign and remaining characters after the optional sign accepted by strtol. -/
def splitSign (s : List Char) : Int × List Char :=
  match s with
  | [] => (1, [])
  | c :: r => if c = '-' then (-1, r) else if c = '+' then (1, r) else (1, s)

/-- Base-10 strtol: skip leading whitespace, optional sign, then a nonempty
digit run; returns the value and the rest of the string (the endptr), or none
when no conversion was performed (endptr == str). The exact value is modelled
(no LONG_MAX clamping: an out-of-long value makes strtol set ERANGE, which
parse_long turns into the same rejection as the range check below). -/
def strtol10 (s : List Char) : Option (Int × List Char) :=
  let s1 := s.dropWhile isSpaceB
  let sgn := (splitSign s1).1
  let s2 := (splitSign s1).2
  let ds := s2.takeWhile isDigitB
  if ds.isEmpty then none
  else some (sgn * (digitsToNat ds : Int), s2.drop ds.length)

/-- parse_long in src/src/ceracoder.c: NULL or empty string, failed conversion,
non-whitespace trailing characters, and out-of-range values are all rejected
(the C function returns -1 and leaves the out-parameter unset; the embedding
returns none). -/
def parse_long (s : List Char) (min_val max_val : Int) : Option Int :=
  if s.isEmpty then none
  else
    match strtol10 s with
    | none => none
    | some vr =>
      let rest := vr.2.dropWhile isTrailSpaceB
      if rest.isEmpty then
        if vr.1 < min_val ∨ vr.1 > max_val then none else some vr.1
      else none

def MIN_BITRATE : Int := 300000
def ABS_MAX_BITRATE : Int := 30000000

/-- parse_bitrate in src/src/ceracoder.c: parse_long over the legacy bitrate
bounds, collapsing rejection to -1. -/
def parse_bitrate (s : List Char) : Int :=
  match parse_long s MIN_BITRATE ABS_MAX_BITRATE with
  | none => -1
  | some v => v

/-!
Projection lemmas: the filter phase of bitrate_update does not touch the
configuration fields, the committed bitrate or the rate-limit deadlines, and
the commit phase does not touch the filters.
-/

theorem filters_min_bitrate (ctx : BitrateContext) (bs : Int) (rtt rate : Rat) (l r : Int) :
    (bitrate_update_filters ctx bs rtt rate l r).min_bitrate = ctx.min_bitrate := rfl

theorem filters_max_bitrate (ctx : BitrateContext) (bs : Int) (rtt rate : Rat) (l r : Int) :
    (bitrate_update_filters ctx bs rtt rate l r).max_bitrate = ctx.max_bitrate := rfl

theorem filters_srt_latency (ctx : BitrateContext) (bs : Int) (rtt rate : Rat) (l r : Int) :
    (bitrate_update_filters ctx bs rtt rate l r).srt_latency = ctx.srt_latency := rfl

theorem filters_cur_bitrate (ctx : BitrateContext) (bs : Int) (rtt rate : Rat) (l r : Int) :
    (bitrate_update_filters ctx bs rtt rate l r).cur_bitrate = ctx.cur_bitrate := rfl

theorem filters_incr_step (ctx : BitrateContext) (bs : Int) (rtt rate : Rat) (l r : Int) :
    (bitrate_update_filters ctx bs rtt rate l r).incr_step = ctx.incr_step := rfl

theorem filters_decr_step (ctx : BitrateContext) (bs : Int) (rtt rate : Rat) (l r : Int) :
    (bitrate_update_filters ctx bs rtt rate l r).decr_step = ctx.decr_step := rfl

theorem filters_incr_interval (ctx : BitrateContext) (bs : Int) (rtt rate : Rat) (l r : Int) :
    (bitrate_update_filters ctx bs rtt rate l r).incr_interval = ctx.incr_interval := rfl

theorem filters_decr_interval (ctx : BitrateContext) (bs : Int) (rtt rate : Rat) (l r : Int) :
    (bitrate_update_filters ctx bs rtt rate l r).decr_interval = ctx.decr_interval := rfl

theorem filters_decr_fast_interval (ctx : BitrateContext) (bs : Int) (rtt rate : Rat) (l r : Int) :
    (bitrate_update_filters ctx bs rtt rate l r).decr_fast_interval = ctx.decr_fast_interval := rfl

theorem filters_next_incr (ctx : BitrateContext) (bs : Int) (rtt rate : Rat) (l r : Int) :
    (bitrate_update_filters ctx bs rtt rate l r).next_bitrate_incr = ctx.next_bitrate_incr := rfl

theorem filters_next_decr (ctx : BitrateContext) (bs : Int) (rtt rate : Rat) (l r : Int) :
    (bitrate_update_filters ctx bs rtt rate l r).next_bitrate_decr = ctx.next_bitrate_decr := rfl

theorem update_fst_rtt_min (ctx : BitrateContext) (bs : Int) (rtt rate : Rat) (t l r : Int) :
    (bitrate_update ctx bs rtt rate t l r).1.rtt_min =
      (bitrate_update_filters ctx bs rtt rate l r).rtt_min := rfl

theorem update_fst_min_bitrate (ctx : BitrateContext) (bs : Int) (rtt rate : Rat) (t l r : Int) :
    (bitrate_update ctx bs rtt rate t l r).1.min_bitrate = ctx.min_bitrate := rfl

theorem update_fst_max_bitrate (ctx : BitrateContext) (bs : Int) (rtt rate : Rat) (t l r : Int) :
    (bitrate_update ctx bs rtt rate t l r).1.max_bitrate = ctx.max_bitrate := rfl

theorem aimd_step_fst_min_bitrate (st : AimdState) (i : BalancerInput) :
    (aimd_step st i).1.min_bitrate = st.min_bitrate := rfl

theorem aimd_step_fst_max_bitrate (st : AimdState) (i : BalancerInput) :
    (aimd_step st i).1.max_bitrate = st.max_bitrate := rfl

theorem aimd_step_fst_decr_interval (st : AimdState) (i : BalancerInput) :
    (aimd_step st i).1.decr_interval = st.decr_interval := rfl

theorem aimd_step_fst_incr_interval (st : AimdState) (i : BalancerInput) :
    (aimd_step st i).1.incr_interval = st.incr_interval := rfl

/-!
Claim C1.
-/

/-- C1: the registry holds all three algorithm variants. balancer_find returns
the algorithm whose name matches exactly for "adaptive", "fixed" and "aimd",
balancer_list_all enumerates exactly the three, and balancer_get_default is
the adaptive algorithm. -/
theorem c1_registry_contents :
    balancer_find (some "adaptive") = some balancer_adaptive ∧
    balancer_find (some "fixed") = some balancer_fixed ∧
    balancer_find (some "aimd") = some balancer_aimd ∧
    balancer_list_all = [balancer_adaptive, balancer_fixed, balancer_aimd] ∧
    balancer_get_default = some balancer_adaptive ∧
    balancer_adaptive.name = "adaptive" ∧
    balancer_fixed.name = "fixed" ∧
    balancer_aimd.name = "aimd" := by
  refine ⟨rfl, ?_, ?_, rfl, rfl, rfl, rfl, rfl⟩ <;> decide

/-!
Claim C10.
-/

/-- C10: balancer_find is total and returns NULL (none) when the name pointer
is NULL, whatever the registry contents are. -/
theorem c10_find_null_name (algs : List BalancerAlgorithm) :
    balancer_find_in algs none = none ∧ balancer_find none = none :=
  ⟨rfl, rfl⟩

/-!
Claim C8.
-/

/-- C8: the rtt_ignore sentinel of 100 ms is tested against the truncated
integer RTT: on any tick whose sample has trunc(rtt) = 100 the minimum-RTT
tracker only applies the upward drift by rtt_min_drift and is never lowered
to the sample RTT, even when rtt < rtt_min and rtt_avg_delta < 1.0. -/
theorem c8_rtt_ignore_sentinel (ctx : BitrateContext) (bs : Int) (rtt rate : Rat)
    (t l r : Int) (h : ctrunc rtt = RTT_IGNORE_VALUE) :
    (bitrate_update ctx bs rtt rate t l r).1.rtt_min = qmul ctx.rtt_min RTT_MIN_DRIFT := by
  rw [update_fst_rtt_min]
  show (if ctrunc rtt ≠ RTT_IGNORE_VALUE ∧ rtt < qmul ctx.rtt_min RTT_MIN_DRIFT ∧
      qadd (qmul ctx.rtt_avg_delta EMA_RTT_DELTA)
        (qmul (qsub rtt ((ctx.prev_rtt : Int) : Rat)) EMA_RTT_DELTA_NEW) < 1 then rtt
    else qmul ctx.rtt_min RTT_MIN_DRIFT) = qmul ctx.rtt_min RTT_MIN_DRIFT
  rw [if_neg]
  intro hcontra
  exact hcontra.1 h

/-- Witness for C8: from the freshly initialized adaptive context, a sample
with rtt = 100.5 ms (truncating to the sentinel 100) leaves rtt_min at the
drifted initial value 200 * 1.001 even though 100.5 < 200. -/
theorem c8_rtt_ignore_sentinel_witness :
    ctrunc (mkRat 201 2) = RTT_IGNORE_VALUE ∧
    mkRat 201 2 < (bitrate_context_init 500000 6000000 2000 1316 30000 100000 500 200).rtt_min ∧
    (bitrate_update (bitrate_context_init 500000 6000000 2000 1316 30000 100000 500 200)
        10 (mkRat 201 2) 5 1000 0 0).1.rtt_min =
      qmul (bitrate_context_init 500000 6000000 2000 1316 30000 100000 500 200).rtt_min
        RTT_MIN_DRIFT :=
  ⟨by decide, by decide,
    c8_rtt_ignore_sentinel (bitrate_context_init 500000 6000000 2000 1316 30000 100000 500 200)
      10 (mkRat 201 2) 5 1000 0 0 (by decide)⟩

/-!
Claim C3.
-/

/-- C3 (amended): balancer_runner_update_bounds performs no validation at all.
For every runner and every pair of bounds, including min_bitrate > max_bitrate,
it overwrites the stored bounds and re-creates the algorithm state from the
updated configuration, keeping the selected algorithm. -/
theorem c3_amended (runner : BalancerRunner) (m M : Int) :
    (balancer_runner_update_bounds runner m M).config =
      { runner.config with min_bitrate := m, max_bitrate := M } ∧
    (balancer_runner_update_bounds runner m M).state =
      algInit runner.algo.id { runner.config with min_bitrate := m, max_bitrate := M } ∧
    (balancer_runner_update_bounds runner m M).algo = runner.algo :=
  ⟨rfl, rfl, rfl⟩

/-- The default adaptive runner used in the C3 counterexample, built through
balancer_runner_init (the getD fallback is never taken: init succeeds). -/
def c3_runner : BalancerRunner :=
  (balancer_runner_init config_init_defaults none 2000 1316).getD
    { algo := balancer_adaptive
      config := balancer_runner_compose config_init_defaults 2000 1316
      state := algInit AlgId.adaptive (balancer_runner_compose config_init_defaults 2000 1316) }

/-- C3 counterexample: calling update_bounds with min_bitrate = 600000 >
max_bitrate = 500000 on a freshly initialized runner is not rejected: the
stored configuration and the algorithm state both change. -/
theorem c3_counterexample :
    (balancer_runner_init config_init_defaults none 2000 1316).isSome = true ∧
    c3_runner.config.min_bitrate = 300000 ∧
    c3_runner.config.max_bitrate = 6000000 ∧
    (600000 : Int) > 500000 ∧
    (balancer_runner_update_bounds c3_runner 600000 500000).config.min_bitrate = 600000 ∧
    (balancer_runner_update_bounds c3_runner 600000 500000).config.max_bitrate = 500000 ∧
    (balancer_runner_update_bounds c3_runner 600000 500000).config ≠ c3_runner.config ∧
    (balancer_runner_update_bounds c3_runner 600000 500000).state ≠ c3_runner.state := by
  refine ⟨rfl, rfl, rfl, by decide, rfl, rfl, by decide, by decide⟩

/-!
Claim C6.
-/

/-- C6 (amended): the [adaptive] loss_threshold key exists in the loaded
configuration carrier (default 0.5) but is not copied into the algorithm
config: the runner-composed BalancerConfig is invariant under the knob, and an
adaptive tick is congested-by-loss exactly when the smoothed loss rate exceeds
the built-in constant LOSS_RATE_THRESHOLD = 0.5, whatever was configured. -/
theorem c6_amended (cfg : BelacoderConfig) (x : Rat) (lat pkt : Int) :
    balancer_runner_compose
        { cfg with adaptive := { cfg.adaptive with loss_threshold := x } } lat pkt =
      balancer_runner_compose cfg lat pkt ∧
    (∀ c : BitrateContext, adaptive_loss_congested c = true ↔ LOSS_RATE_THRESHOLD < c.loss_rate) ∧
    config_init_defaults.adaptive.loss_threshold = mkRat 1 2 ∧
    LOSS_RATE_THRESHOLD = mkRat 1 2 := by
  refine ⟨rfl, ?_, rfl, rfl⟩
  intro c
  simp [adaptive_loss_congested]

/-- Loaded configuration with the adaptive loss_threshold overridden to 0.2,
for the C6 counterexample. -/
def c6_cfg : BelacoderConfig :=
  { config_init_defaults with
    adaptive := { config_init_defaults.adaptive with loss_threshold := mkRat 1 5 } }

/-- Post-filter adaptive context of the C6 counterexample tick: the first
sample after init reports 3 lost packets. -/
def c6_filtered : BitrateContext :=
  bitrate_update_filters (adaptive_init (balancer_runner_compose c6_cfg 2000 1316)) 10 30 5 3 0

/-- C6 counterexample: with loss_threshold configured to x = 0.2, the first
tick smooths the loss rate to 0.3 > x, so the claim predicts a
congested-by-loss tick; the code flag is false because it compares against the
constant 0.5, and the composed algorithm config is bit-identical to the one
composed from the default configuration. -/
theorem c6_counterexample :
    c6_cfg.adaptive.loss_threshold = mkRat 1 5 ∧
    c6_filtered.loss_rate = mkRat 3 10 ∧
    c6_cfg.adaptive.loss_threshold < c6_filtered.loss_rate ∧
    adaptive_loss_congested c6_filtered = false ∧
    balancer_runner_compose c6_cfg 2000 1316 =
      balancer_runner_compose config_init_defaults 2000 1316 := by
  refine ⟨rfl, by decide, by decide, by decide, rfl⟩

/-!
Claim C2.
-/

/-- Every decision of the adaptive step is the clamp of some computed bitrate
to the context bounds, rounded down to 100 kbps. -/
theorem bitrate_update_output_shape (ctx : BitrateContext) (bs : Int) (rtt rate : Rat)
    (t l r : Int) :
    ∃ b, (bitrate_update ctx bs rtt rate t l r).2.new_bitrate =
      rdq (min_max b ctx.min_bitrate ctx.max_bitrate) :=
  ⟨_, rfl⟩

/-- Every decision of the AIMD step is the clamp of some computed bitrate to
the state bounds, rounded down to 100 kbps. -/
theorem aimd_step_output_shape (st : AimdState) (i : BalancerInput) :
    ∃ b, (aimd_step st i).2.new_bitrate =
      rdq (iMAX st.min_bitrate (iMIN st.max_bitrate b)) :=
  ⟨_, rfl⟩

/-- The two clamp spellings in the sources compute the same value. -/
theorem iMAX_iMIN_eq_min_max (b l h : Int) : iMAX l (iMIN h b) = min_max b l h := by
  rw [iMAX_eq, iMIN_eq, min_max, iMAX_eq, iMIN_eq, max_comm, min_comm]

/-- Bounds of a clamped-and-rounded bitrate. -/
theorem rdq_clamp_bound (b l h : Int) (h0 : 0 ≤ l) (hlh : l ≤ h) :
    (100000 : Int) ∣ rdq (min_max b l h) ∧
    rdq l ≤ rdq (min_max b l h) ∧ rdq (min_max b l h) ≤ h := by
  obtain ⟨hl, hh⟩ := min_max_le b l h hlh
  refine ⟨rdq_dvd _, rdq_mono l _ h0 hl, le_trans (rdq_le_self _ (le_trans h0 hl)) hh⟩

/-- Invariant tying an algorithm state to the configuration it was created
from: the copied bounds (or, for the fixed algorithm, the precomputed rounded
maximum) agree with the configuration. -/
def StateOk (cfg : BalancerConfig) : AlgState → Prop
  | AlgState.adaptive ctx => ctx.min_bitrate = cfg.min_bitrate ∧ ctx.max_bitrate = cfg.max_bitrate
  | AlgState.aimd st => st.min_bitrate = cfg.min_bitrate ∧ st.max_bitrate = cfg.max_bitrate
  | AlgState.fixed st => st.fixed_bitrate = rdq cfg.max_bitrate

theorem algInit_StateOk (id : AlgId) (cfg : BalancerConfig) : StateOk cfg (algInit id cfg) := by
  cases id
  · exact ⟨rfl, rfl⟩
  · exact ⟨rfl, rfl⟩
  · exact rfl

theorem algStep_StateOk (cfg : BalancerConfig) (st : AlgState) (i : BalancerInput)
    (h : StateOk cfg st) : StateOk cfg (algStep st i).1 := by
  cases st <;> exact h

theorem algStep_output_bound (cfg : BalancerConfig) (st : AlgState) (i : BalancerInput)
    (h0 : 0 ≤ cfg.min_bitrate) (h1 : cfg.min_bitrate ≤ cfg.max_bitrate)
    (hok : StateOk cfg st) :
    (100000 : Int) ∣ (algStep st i).2.new_bitrate ∧
    rdq cfg.min_bitrate ≤ (algStep st i).2.new_bitrate ∧
    (algStep st i).2.new_bitrate ≤ cfg.max_bitrate := by
  cases st with
  | adaptive ctx =>
    obtain ⟨b, hb⟩ := bitrate_update_output_shape ctx i.buffer_size i.rtt i.send_rate_mbps
      i.timestamp i.pkt_loss_total i.pkt_retrans_total
    have hstep : (algStep (AlgState.adaptive ctx) i).2.new_bitrate =
        rdq (min_max b cfg.min_bitrate cfg.max_bitrate) := by
      rw [← hok.1, ← hok.2]
      exact hb
    rw [hstep]
    exact rdq_clamp_bound b cfg.min_bitrate cfg.max_bitrate h0 h1
  | aimd st =>
    obtain ⟨b, hb⟩ := aimd_step_output_shape st i
    have hstep : (algStep (AlgState.aimd st) i).2.new_bitrate =
        rdq (min_max b cfg.min_bitrate cfg.max_bitrate) := by
      rw [← hok.1, ← hok.2, ← iMAX_iMIN_eq_min_max]
      exact hb
    rw [hstep]
    exact rdq_clamp_bound b cfg.min_bitrate cfg.max_bitrate h0 h1
  | fixed st =>
    show (100000 : Int) ∣ st.fixed_bitrate ∧
      rdq cfg.min_bitrate ≤ st.fixed_bitrate ∧ st.fixed_bitrate ≤ cfg.max_bitrate
    rw [hok]
    exact ⟨rdq_dvd _, rdq_mono _ _ h0 h1,
      rdq_le_self _ (le_trans h0 h1)⟩

theorem algOutputs_bound (cfg : BalancerConfig) (samples : List BalancerInput)
    (h0 : 0 ≤ cfg.min_bitrate) (h1 : cfg.min_bitrate ≤ cfg.max_bitrate) :
    ∀ st : AlgState, StateOk cfg st →
      ∀ o ∈ algOutputs st samples,
        (100000 : Int) ∣ o.new_bitrate ∧
        rdq cfg.min_bitrate ≤ o.new_bitrate ∧ o.new_bitrate ≤ cfg.max_bitrate := by
  induction samples with
  | nil => intro st _ o ho; simp [algOutputs] at ho
  | cons i is ih =>
    intro st hok o ho
    simp only [algOutputs] at ho
    rcases List.mem_cons.1 ho with hh | hmem
    · rw [hh]
      exact algStep_output_bound cfg st i h0 h1 hok
    · exact ih (algStep st i).1 (algStep_StateOk cfg st i hok) o hmem

/-- C2 (amended): for every algorithm, every configuration with
0 ≤ min_bitrate ≤ max_bitrate, and every input sample sequence, each decision
is a multiple of 100 000 and lies in the inclusive range
[min_bitrate rounded down to 100 000, max_bitrate]; in particular it lies in
[min_bitrate, max_bitrate] whenever min_bitrate is itself a multiple of
100 000. -/
theorem c2_amended (id : AlgId) (cfg : BalancerConfig) (samples : List BalancerInput)
    (h0 : 0 ≤ cfg.min_bitrate) (h1 : cfg.min_bitrate ≤ cfg.max_bitrate) :
    ∀ o ∈ algOutputs (algInit id cfg) samples,
      (100000 : Int) ∣ o.new_bitrate ∧
      rdq cfg.min_bitrate ≤ o.new_bitrate ∧ o.new_bitrate ≤ cfg.max_bitrate :=
  algOutputs_bound cfg samples h0 h1 (algInit id cfg) (algInit_StateOk id cfg)

/-- Algorithm configuration of the C2 witness: defaults with a 500 kbps
minimum, composed by the runner. -/
def c2_witness_cfg : BalancerConfig :=
  balancer_runner_compose { config_init_defaults with min_bitrate := 500 } 2000 1316

/-- Witness for C2 (amended), instantiated for the adaptive algorithm on a
two-sample run with the 500/6000 kbps bounds. -/
theorem c2_amended_witness :
    (0 : Int) ≤ c2_witness_cfg.min_bitrate ∧
    c2_witness_cfg.min_bitrate ≤ c2_witness_cfg.max_bitrate ∧
    ∀ o ∈ algOutputs (algInit AlgId.adaptive c2_witness_cfg)
        [{ buffer_size := 10, rtt := 30, send_rate_mbps := 5, timestamp := 1000,
           pkt_loss_total := 0, pkt_retrans_total := 0 },
         { buffer_size := 300, rtt := 700, send_rate_mbps := 2, timestamp := 1500,
           pkt_loss_total := 4, pkt_retrans_total := 2 }],
      (100000 : Int) ∣ o.new_bitrate ∧
      rdq c2_witness_cfg.min_bitrate ≤ o.new_bitrate ∧
      o.new_bitrate ≤ c2_witness_cfg.max_bitrate :=
  ⟨by decide, by decide,
    c2_amended AlgId.adaptive c2_witness_cfg _ (by decide) (by decide)⟩

/-- Algorithm configuration of the C2 counterexample: min = max = 250 kbps,
composed by the runner. -/
def c2_cfg : BalancerConfig :=
  balancer_runner_compose { config_init_defaults with min_bitrate := 250, max_bitrate := 250 }
    2000 1316

/-- C2 counterexample: with min_bitrate = max_bitrate = 250 000 bps (so
min ≤ max) the adaptive algorithm's first decision on a valid sample is
200 000 bps, strictly below min_bitrate: rounding down to 100 kbps happens
after clamping, so the claimed range [min_bitrate, max_bitrate] is violated
whenever min_bitrate is not a multiple of 100 000. -/
theorem c2_counterexample :
    c2_cfg.min_bitrate = 250000 ∧
    c2_cfg.max_bitrate = 250000 ∧
    c2_cfg.min_bitrate ≤ c2_cfg.max_bitrate ∧
    (algOutputs (algInit AlgId.adaptive c2_cfg)
        [{ buffer_size := 10, rtt := 30, send_rate_mbps := 5, timestamp := 1000,
           pkt_loss_total := 0, pkt_retrans_total := 0 }]).map
      (fun o => o.new_bitrate) = [200000] ∧
    ¬ c2_cfg.min_bitrate ≤ 200000 := by
  refine ⟨rfl, rfl, by decide, by decide, by decide⟩

/-!
Claim C4.
-/

/-- C4 (amended): on any tick where the stored bitrate is strictly above
min_bitrate and the emergency condition holds (truncated RTT at least
srt_latency/3, or buffer above that tick's computed bs_th3), the adaptive
algorithm commits exactly min_bitrate and the decision is min_bitrate rounded
down to 100 kbps — equal to min_bitrate whenever it is a multiple of 100 000,
as in scenario S2. -/
theorem c4_amended (ctx : BitrateContext) (bs : Int) (rtt rate : Rat) (t l r : Int)
    (hgt : ctx.cur_bitrate > ctx.min_bitrate)
    (hmm : ctx.min_bitrate ≤ ctx.max_bitrate)
    (hcond : ctrunc rtt ≥ ctx.srt_latency.tdiv 3 ∨
      bs > adaptive_bs_th3 (bitrate_update_filters ctx bs rtt rate l r)) :
    (bitrate_update ctx bs rtt rate t l r).1.cur_bitrate = ctx.min_bitrate ∧
    (bitrate_update ctx bs rtt rate t l r).2.new_bitrate = rdq ctx.min_bitrate := by
  have hclamp : min_max ctx.min_bitrate ctx.min_bitrate ctx.max_bitrate = ctx.min_bitrate := by
    rw [min_max, iMIN_eq, iMAX_eq, min_eq_left hmm, max_self]
  have hcond2 : (bitrate_update_filters ctx bs rtt rate l r).cur_bitrate >
      (bitrate_update_filters ctx bs rtt rate l r).min_bitrate ∧
      (ctrunc rtt ≥ (bitrate_update_filters ctx bs rtt rate l r).srt_latency.tdiv 3 ∨
        bs > adaptive_bs_th3 (bitrate_update_filters ctx bs rtt rate l r)) := by
    rw [filters_cur_bitrate, filters_min_bitrate, filters_srt_latency]
    exact ⟨hgt, hcond⟩
  have hdec : (adaptive_decide (bitrate_update_filters ctx bs rtt rate l r) bs (ctrunc rtt) t).1 =
      (bitrate_update_filters ctx bs rtt rate l r).min_bitrate := by
    rw [adaptive_decide, if_pos hcond2]
  constructor
  · show min_max (adaptive_decide (bitrate_update_filters ctx bs rtt rate l r)
        bs (ctrunc rtt) t).1
      (bitrate_update_filters ctx bs rtt rate l r).min_bitrate
      (bitrate_update_filters ctx bs rtt rate l r).max_bitrate = ctx.min_bitrate
    rw [hdec, filters_min_bitrate, filters_max_bitrate]
    exact hclamp
  · show rdq (min_max (adaptive_decide (bitrate_update_filters ctx bs rtt rate l r)
        bs (ctrunc rtt) t).1
      (bitrate_update_filters ctx bs rtt rate l r).min_bitrate
      (bitrate_update_filters ctx bs rtt rate l r).max_bitrate) = rdq ctx.min_bitrate
    rw [hdec, filters_min_bitrate, filters_max_bitrate, hclamp]

/-- Adaptive context of scenario S2: defaults with a 500 kbps minimum,
composed by the runner with srt latency 2000 ms. -/
def c4_s2_ctx : BitrateContext :=
  adaptive_init (balancer_runner_compose { config_init_defaults with min_bitrate := 500 }
    2000 1316)

/-- Witness for C4 (amended), which is exactly scenario S2: the single sample
bs=50, rtt=700, rate=2, t=1000, no loss, drives the fresh 500/6000 kbps
controller to a 500 000 bps decision through the emergency branch. -/
theorem c4_amended_witness :
    c4_s2_ctx.cur_bitrate > c4_s2_ctx.min_bitrate ∧
    c4_s2_ctx.min_bitrate ≤ c4_s2_ctx.max_bitrate ∧
    ctrunc 700 ≥ c4_s2_ctx.srt_latency.tdiv 3 ∧
    (bitrate_update c4_s2_ctx 50 700 2 1000 0 0).2.new_bitrate = 500000 :=
  ⟨by decide, by decide, by decide, by
    have h := (c4_amended c4_s2_ctx 50 700 2 1000 0 0 (by decide) (by decide)
      (Or.inl (by decide))).2
    rw [h]
    decide⟩

/-- Initial adaptive context of the C4 counterexample: bounds
2 100 000 / 6 000 000 bps with a tiny configured srt latency of 3 ms. -/
def c4_ctx0 : BitrateContext := bitrate_context_init 2100000 6000000 3 1316 30000 100000 500 200

/-- State reached after one valid tick (the emergency tick at t=1000). -/
def c4_ctx1 : BitrateContext := (bitrate_update c4_ctx0 0 2 0 1000 0 0).1

/-- C4 counterexample: in the reachable state c4_ctx1 (whose stored bitrate
sits at min_bitrate after the first emergency tick), the next sample has
trunc(rtt) = 2 ≥ srt_latency/3 = 1 — the claim's emergency condition — yet the
decision is 2 200 000, not min_bitrate = 2 100 000: the emergency branch is
gated on cur_bitrate > min_bitrate, and the growth branch fires instead. -/
theorem c4_counterexample :
    c4_ctx0.min_bitrate = 2100000 ∧
    (bitrate_update c4_ctx0 0 2 0 1000 0 0).2.new_bitrate = 2100000 ∧
    c4_ctx1.cur_bitrate = 2100000 ∧
    ctrunc (mkRat 5 2) ≥ c4_ctx1.srt_latency.tdiv 3 ∧
    (1000 : Int) ≤ 1100 ∧
    (bitrate_update c4_ctx1 0 (mkRat 5 2) 0 1100 0 0).2.new_bitrate = 2200000 ∧
    (2200000 : Int) ≠ 2100000 := by
  refine ⟨rfl, by decide, by decide, by decide, by decide, by decide, by decide⟩

/-!
Claim C5.
-/

/-- C5 (amended): a single non-emergency congested AIMD step taken after
next_decr_ts produces a decision whose ratio to the previous tick's decision
lies within [decr_mult − 0.15, decr_mult + 0.10], provided the multiplier is
in (0, 1], the decremented bitrate does not hit the min clamp, the stored
bitrate respects the max bound, and the previous decision is at least 1 Mbps
(so that the 100 kbps rounding granularity stays inside the margin). The
ratio bound is stated multiplicatively against the previous decision
rdq cur_bitrate. -/
theorem c5_amended (st : AimdState) (i : BalancerInput)
    (hm0 : 0 < st.decr_mult) (hm1 : st.decr_mult ≤ 1)
    (hcur : (1000000 : Int) ≤ st.cur_bitrate)
    (hmax : st.cur_bitrate ≤ st.max_bitrate)
    (hne : i.rtt < ((st.srt_latency.tdiv 3 : Int) : Rat))
    (hcg : i.rtt > ((aimd_rtt_threshold st i.rtt : Int) : Rat) ∨
      i.buffer_size > AIMD_BS_THRESHOLD)
    (hts : i.timestamp > st.next_decr)
    (hminok : st.min_bitrate ≤ ctrunc (qmul ((st.cur_bitrate : Int) : Rat) st.decr_mult)) :
    (st.decr_mult - 3/20) * (rdq st.cur_bitrate : Rat) ≤
      ((aimd_step st i).2.new_bitrate : Rat) ∧
    ((aimd_step st i).2.new_bitrate : Rat) ≤
      (st.decr_mult + 1/10) * (rdq st.cur_bitrate : Rat) := by
  have hcur0 : (0 : Int) ≤ st.cur_bitrate := le_trans (by norm_num) hcur
  have hcurq : (0 : Rat) ≤ (st.cur_bitrate : Rat) := by exact_mod_cast hcur0
  have hq0 : (0 : Rat) ≤ (st.cur_bitrate : Rat) * st.decr_mult := mul_nonneg hcurq hm0.le
  have hqm : qmul ((st.cur_bitrate : Int) : Rat) st.decr_mult =
      (st.cur_bitrate : Rat) * st.decr_mult := qmul_eq _ _
  have hA : (ctrunc (qmul ((st.cur_bitrate : Int) : Rat) st.decr_mult) : Rat) ≤
      (st.cur_bitrate : Rat) * st.decr_mult := by
    rw [hqm]; exact ctrunc_le _ hq0
  have hB : (st.cur_bitrate : Rat) * st.decr_mult <
      (ctrunc (qmul ((st.cur_bitrate : Int) : Rat) st.decr_mult) : Rat) + 1 := by
    rw [hqm]; exact lt_ctrunc_add_one _ hq0
  have hC0 : (0 : Int) ≤ ctrunc (qmul ((st.cur_bitrate : Int) : Rat) st.decr_mult) := by
    rw [hqm]; exact ctrunc_nonneg _ hq0
  have hcur2max : ctrunc (qmul ((st.cur_bitrate : Int) : Rat) st.decr_mult) ≤
      st.max_bitrate := by
    have h1 : (st.cur_bitrate : Rat) * st.decr_mult ≤ (st.cur_bitrate : Rat) :=
      mul_le_of_le_one_right hcurq hm1
    have h2 : (ctrunc (qmul ((st.cur_bitrate : Int) : Rat) st.decr_mult) : Rat) ≤
        (st.max_bitrate : Rat) :=
      le_trans hA (le_trans h1 (by exact_mod_cast hmax))
    exact_mod_cast h2
  have he : aimd_congestion st i = (st.cur_bitrate, st.next_decr, true) := by
    rw [aimd_congestion, if_neg (not_le.2 hne), if_pos hcg]
  have ha : aimd_adjust st i =
      (ctrunc (qmul ((st.cur_bitrate : Int) : Rat) st.decr_mult),
        i.timestamp + st.decr_interval, st.next_incr) := by
    rw [aimd_adjust]
    simp only [he]
    rw [if_pos ⟨trivial, hts⟩]
  have hstep : (aimd_step st i).2.new_bitrate =
      rdq (ctrunc (qmul ((st.cur_bitrate : Int) : Rat) st.decr_mult)) := by
    show rdq (iMAX st.min_bitrate (iMIN st.max_bitrate (aimd_adjust st i).1)) = _
    rw [ha]
    have h1 : iMIN st.max_bitrate (ctrunc (qmul ((st.cur_bitrate : Int) : Rat) st.decr_mult)) =
        ctrunc (qmul ((st.cur_bitrate : Int) : Rat) st.decr_mult) := by
      rw [iMIN_eq, min_eq_right hcur2max]
    have h2 : iMAX st.min_bitrate (ctrunc (qmul ((st.cur_bitrate : Int) : Rat) st.decr_mult)) =
        ctrunc (qmul ((st.cur_bitrate : Int) : Rat) st.decr_mult) := by
      rw [iMAX_eq, max_eq_right hminok]
    rw [h1, h2]
  rw [hstep]
  set cur2 := ctrunc (qmul ((st.cur_bitrate : Int) : Rat) st.decr_mult) with hcur2
  have hnew1 : ((rdq cur2 : Int) : Rat) ≤ (cur2 : Rat) := by
    exact_mod_cast rdq_le_self cur2 hC0
  have hnew2 : (cur2 : Rat) - 100000 < ((rdq cur2 : Int) : Rat) := by
    have := lt_rdq_add cur2 hC0
    exact_mod_cast this
  have hprev1 : ((rdq st.cur_bitrate : Int) : Rat) ≤ (st.cur_bitrate : Rat) := by
    exact_mod_cast rdq_le_self st.cur_bitrate hcur0
  have hprev2 : (st.cur_bitrate : Rat) < ((rdq st.cur_bitrate : Int) : Rat) + 100000 := by
    have := lt_rdq_add st.cur_bitrate hcur0
    exact_mod_cast by linarith [this]
  have hprev3 : (1000000 : Rat) ≤ ((rdq st.cur_bitrate : Int) : Rat) := by
    have h1 : rdq 1000000 ≤ rdq st.cur_bitrate := rdq_mono 1000000 st.cur_bitrate (by norm_num) hcur
    have h2 : rdq (1000000 : Int) = 1000000 := by decide
    rw [h2] at h1
    exact_mod_cast h1
  constructor
  · nlinarith [mul_nonneg (sub_nonneg.2 hprev1) hm0.le, hnew2, hB, hprev3]
  · nlinarith [mul_nonneg (sub_nonneg.2 (le_of_lt hprev2)) hm0.le,
      mul_nonneg (sub_nonneg.2 hm1) (show (0 : Rat) ≤ 100000 by norm_num),
      hnew1, hA, hprev3]

/-- AIMD state of the C5 witness: fresh runner-composed defaults with a
500 kbps minimum. -/
def c5_witness_st : AimdState :=
  aimd_init (balancer_runner_compose { config_init_defaults with min_bitrate := 500 } 2000 1316)

/-- Sample of the C5 witness: a buffer-congested tick (bs = 200 > 100) with a
calm 30 ms RTT at t = 1000. -/
def c5_witness_input : BalancerInput :=
  { buffer_size := 200, rtt := 30, send_rate_mbps := 5, timestamp := 1000,
    pkt_loss_total := 0, pkt_retrans_total := 0 }

/-- Witness for C5 (amended): the concrete congested tick decrements
6 000 000 bps to 4 500 000 bps, within the claimed ratio window. -/
theorem c5_amended_witness :
    (0 < c5_witness_st.decr_mult ∧ c5_witness_st.decr_mult ≤ 1 ∧
      (1000000 : Int) ≤ c5_witness_st.cur_bitrate ∧
      c5_witness_st.cur_bitrate ≤ c5_witness_st.max_bitrate ∧
      c5_witness_input.rtt < ((c5_witness_st.srt_latency.tdiv 3 : Int) : Rat) ∧
      (c5_witness_input.rtt >
          ((aimd_rtt_threshold c5_witness_st c5_witness_input.rtt : Int) : Rat) ∨
        c5_witness_input.buffer_size > AIMD_BS_THRESHOLD) ∧
      c5_witness_input.timestamp > c5_witness_st.next_decr ∧
      c5_witness_st.min_bitrate ≤
        ctrunc (qmul ((c5_witness_st.cur_bitrate : Int) : Rat) c5_witness_st.decr_mult)) ∧
    (c5_witness_st.decr_mult - 3/20) * (rdq c5_witness_st.cur_bitrate : Rat) ≤
      ((aimd_step c5_witness_st c5_witness_input).2.new_bitrate : Rat) ∧
    ((aimd_step c5_witness_st c5_witness_input).2.new_bitrate : Rat) ≤
      (c5_witness_st.decr_mult + 1/10) * (rdq c5_witness_st.cur_bitrate : Rat) :=
  ⟨⟨by decide, by decide, by decide, by decide, by decide, by decide, by decide, by decide⟩,
    c5_amended c5_witness_st c5_witness_input (by decide) (by decide) (by decide) (by decide)
      (by decide) (by decide) (by decide) (by decide)⟩

/-- Fresh AIMD state for the C5 counterexample (bounds 500 000 / 6 000 000,
default decr_mult 0.75). -/
def c5_cex_st0 : AimdState :=
  aimd_init (balancer_runner_compose { config_init_defaults with min_bitrate := 500 } 2000 1316)

/-- Good first tick of the C5 counterexample. -/
def c5_cex_good : BalancerInput :=
  { buffer_size := 10, rtt := 30, send_rate_mbps := 5, timestamp := 1000,
    pkt_loss_total := 0, pkt_retrans_total := 0 }

/-- State after the good tick. -/
def c5_cex_st1 : AimdState := (aimd_step c5_cex_st0 c5_cex_good).1

/-- Emergency tick of the C5 counterexample: rtt = 700 ≥ srt_latency/3. -/
def c5_cex_bad : BalancerInput :=
  { buffer_size := 10, rtt := 700, send_rate_mbps := 1, timestamp := 1250,
    pkt_loss_total := 0, pkt_retrans_total := 0 }

/-- C5 counterexample: in the reachable state c5_cex_st1 (previous decision
6 000 000 bps, next_decr_ts = 0), the single congested tick at t = 1250 >
next_decr_ts takes the emergency branch and yields 500 000 bps. The claimed
lower ratio bound demands at least (0.75 − 0.15)·6 000 000 = 3 600 000 bps,
so the ratio 1/12 falls far outside [decr_mult − 0.15, decr_mult + 0.10]. -/
theorem c5_counterexample :
    (aimd_step c5_cex_st0 c5_cex_good).2.new_bitrate = 6000000 ∧
    c5_cex_st1.cur_bitrate = 6000000 ∧
    c5_cex_st1.next_decr = 0 ∧
    c5_cex_bad.timestamp > c5_cex_st1.next_decr ∧
    (aimd_congestion c5_cex_st1 c5_cex_bad).2.2 = true ∧
    (aimd_step c5_cex_st1 c5_cex_bad).2.new_bitrate = 500000 ∧
    c5_cex_st1.decr_mult = mkRat 3 4 ∧
    (c5_cex_st1.decr_mult - 3/20) * ((aimd_step c5_cex_st0 c5_cex_good).2.new_bitrate : Rat) =
      3600000 ∧
    ((aimd_step c5_cex_st1 c5_cex_bad).2.new_bitrate : Rat) < 3600000 := by
  refine ⟨by decide, by decide, by decide, by decide, by decide, by decide, by decide, ?_, ?_⟩
  · have h1 : c5_cex_st1.decr_mult = mkRat 3 4 := by decide
    have h2 : (aimd_step c5_cex_st0 c5_cex_good).2.new_bitrate = 6000000 := by decide
    rw [h1, h2, Rat.mkRat_eq_divInt, Rat.divInt_eq_div]
    norm_num
  · have h : (aimd_step c5_cex_st1 c5_cex_bad).2.new_bitrate = 500000 := by decide
    rw [h]
    norm_num

/-!
Claim C7.
-/

/-- The adaptive ladder never moves next_bitrate_incr backwards: only the grow
branch touches it, and that branch is gated on timestamp > next_bitrate_incr. -/
theorem adaptive_decide_incr_mono (c : BitrateContext) (bs rtt_int t : Int)
    (hii : 0 ≤ c.incr_interval) :
    c.next_bitrate_incr ≤ (adaptive_decide c bs rtt_int t).2.1 := by
  rw [adaptive_decide]
  split_ifs with h1 h2 h3 h4
  · exact le_refl _
  · exact le_refl _
  · exact le_refl _
  · show c.next_bitrate_incr ≤ t + c.incr_interval
    have ht := h4.1
    omega
  · exact le_refl _

/-- Outside the emergency branch, the adaptive ladder never moves
next_bitrate_decr backwards: the heavy and light branches are gated on
timestamp > next_bitrate_decr. -/
theorem adaptive_decide_decr_mono (c : BitrateContext) (bs rtt_int t : Int)
    (hdi : 0 ≤ c.decr_interval) (hdf : 0 ≤ c.decr_fast_interval)
    (hne : ¬ (c.cur_bitrate > c.min_bitrate ∧
      (rtt_int ≥ c.srt_latency.tdiv 3 ∨ bs > adaptive_bs_th3 c))) :
    c.next_bitrate_decr ≤ (adaptive_decide c bs rtt_int t).2.2 := by
  rw [adaptive_decide, if_neg hne]
  split_ifs with h2 h3 h4
  · show c.next_bitrate_decr ≤ t + c.decr_fast_interval
    have ht := h2.1
    omega
  · show c.next_bitrate_decr ≤ t + c.decr_interval
    have ht := h3.1
    omega
  · exact le_refl _
  · exact le_refl _

/-- Lift of adaptive_decide_incr_mono to a bitrate_update step. -/
theorem adaptive_next_incr_mono (ctx : BitrateContext) (bs : Int) (rtt rate : Rat)
    (t l r : Int) (hii : 0 ≤ ctx.incr_interval) :
    ctx.next_bitrate_incr ≤ (bitrate_update ctx bs rtt rate t l r).1.next_bitrate_incr := by
  have h := adaptive_decide_incr_mono (bitrate_update_filters ctx bs rtt rate l r)
    bs (ctrunc rtt) t (by rw [filters_incr_interval]; exact hii)
  rw [filters_next_incr] at h
  exact h

/-- Lift of adaptive_decide_decr_mono to a bitrate_update step. -/
theorem adaptive_next_decr_mono (ctx : BitrateContext) (bs : Int) (rtt rate : Rat)
    (t l r : Int) (hdi : 0 ≤ ctx.decr_interval) (hdf : 0 ≤ ctx.decr_fast_interval)
    (hne : ¬ (ctx.cur_bitrate > ctx.min_bitrate ∧
      (ctrunc rtt ≥ ctx.srt_latency.tdiv 3 ∨
        bs > adaptive_bs_th3 (bitrate_update_filters ctx bs rtt rate l r)))) :
    ctx.next_bitrate_decr ≤ (bitrate_update ctx bs rtt rate t l r).1.next_bitrate_decr := by
  have hne2 : ¬ ((bitrate_update_filters ctx bs rtt rate l r).cur_bitrate >
      (bitrate_update_filters ctx bs rtt rate l r).min_bitrate ∧
      (ctrunc rtt ≥ (bitrate_update_filters ctx bs rtt rate l r).srt_latency.tdiv 3 ∨
        bs > adaptive_bs_th3 (bitrate_update_filters ctx bs rtt rate l r))) := by
    rw [filters_cur_bitrate, filters_min_bitrate, filters_srt_latency]
    exact hne
  have h := adaptive_decide_decr_mono (bitrate_update_filters ctx bs rtt rate l r)
    bs (ctrunc rtt) t (by rw [filters_decr_interval]; exact hdi)
    (by rw [filters_decr_fast_interval]; exact hdf) hne2
  rw [filters_next_decr] at h
  exact h

/-- The AIMD adjustment never moves next_incr backwards. -/
theorem aimd_adjust_incr_mono (st : AimdState) (i : BalancerInput)
    (hii : 0 ≤ st.incr_interval) :
    st.next_incr ≤ (aimd_adjust st i).2.2 := by
  rw [aimd_adjust]
  split_ifs with h1 h2
  · exact le_refl _
  · show st.next_incr ≤ i.timestamp + st.incr_interval
    have ht := h2.2
    omega
  · exact le_refl _

/-- Single-step bounds for the AIMD next_decr deadline: assuming the invariant
next_decr ≤ timestamp + decr_interval on entry, the deadline never decreases
and the invariant is re-established at the new timestamp. -/
theorem aimd_adjust_decr_bounds (st : AimdState) (i : BalancerInput)
    (_hdi : 0 ≤ st.decr_interval)
    (hinv : st.next_decr ≤ i.timestamp + st.decr_interval) :
    st.next_decr ≤ (aimd_adjust st i).2.1 ∧
    (aimd_adjust st i).2.1 ≤ i.timestamp + st.decr_interval := by
  rw [aimd_adjust, aimd_congestion]
  split_ifs with h1 h2 h3 h4 h5 h6 h7 h8 <;> constructor <;> simp_all

/-- The state after an AIMD step, with the invariant threaded through. -/
theorem aimd_step_decr_bounds (st : AimdState) (i : BalancerInput)
    (hdi : 0 ≤ st.decr_interval)
    (hinv : st.next_decr ≤ i.timestamp + st.decr_interval) :
    st.next_decr ≤ (aimd_step st i).1.next_decr ∧
    (aimd_step st i).1.next_decr ≤ i.timestamp + st.decr_interval :=
  aimd_adjust_decr_bounds st i hdi hinv

/-- Deadline chain for an AIMD run: with non-decreasing timestamps and the
entry invariant, the successive next_decr values are non-decreasing. -/
theorem aimd_states_decr_chain (inputs : List BalancerInput) :
    ∀ st : AimdState, 0 ≤ st.decr_interval →
      List.Chain' (fun a b => a.timestamp ≤ b.timestamp) inputs →
      (∀ j ∈ inputs.head?, st.next_decr ≤ j.timestamp + st.decr_interval) →
      List.Chain' (fun a b => a ≤ b) ((st :: aimdStates st inputs).map AimdState.next_decr) := by
  induction inputs with
  | nil =>
    intro st _ _ _
    simp [aimdStates]
  | cons i is ih =>
    intro st hdi hmono hstart
    have hstart_i : st.next_decr ≤ i.timestamp + st.decr_interval := hstart i rfl
    obtain ⟨hb1, hb2⟩ := aimd_step_decr_bounds st i hdi hstart_i
    have hdi1 : 0 ≤ (aimd_step st i).1.decr_interval := by
      rw [aimd_step_fst_decr_interval]
      exact hdi
    have hmono_head := (List.chain'_cons'.1 hmono).1
    have hmono_tail := (List.chain'_cons'.1 hmono).2
    have hstart1 : ∀ j ∈ is.head?, (aimd_step st i).1.next_decr ≤
        j.timestamp + (aimd_step st i).1.decr_interval := by
      intro j hj
      rw [aimd_step_fst_decr_interval]
      exact le_trans hb2 (by have := hmono_head j hj; omega)
    have hchain := ih (aimd_step st i).1 hdi1 hmono_tail hstart1
    show List.Chain' (fun a b => a ≤ b)
      (st.next_decr :: ((aimd_step st i).1 :: aimdStates (aimd_step st i).1 is).map
        AimdState.next_decr)
    rw [List.map_cons] at hchain ⊢
    exact List.chain'_cons.2 ⟨hb1, hchain⟩

/-- The AIMD init deadline interval is always positive (config value if
positive, else the 200 ms default). -/
theorem aimd_init_decr_interval_nonneg (cfg : BalancerConfig) :
    0 ≤ (aimd_init cfg).decr_interval := by
  show (0 : Int) ≤ (if 0 < cfg.aimd_decr_interval then cfg.aimd_decr_interval
    else AIMD_DEF_DECR_INTERVAL)
  split_ifs with h
  · exact h.le
  · norm_num [AIMD_DEF_DECR_INTERVAL]

/-- C7 (amended): under non-decreasing timestamps the rate-limit deadlines
never move backwards, except through the adaptive emergency branch.
Specifically: (1) the adaptive next_bitrate_incr is non-decreasing at every
step; (2) the adaptive next_bitrate_decr is non-decreasing at every step in
which the emergency branch does not fire; (3) the AIMD next_incr is
non-decreasing at every step; (4) along any AIMD run from init with
non-decreasing, non-negative timestamps, the successive next_decr values are
non-decreasing; and (5) the fixed algorithm state (which holds no deadlines)
never changes at all. -/
theorem c7_amended :
    (∀ (ctx : BitrateContext) (bs : Int) (rtt rate : Rat) (t l r : Int),
      0 ≤ ctx.incr_interval →
      ctx.next_bitrate_incr ≤ (bitrate_update ctx bs rtt rate t l r).1.next_bitrate_incr) ∧
    (∀ (ctx : BitrateContext) (bs : Int) (rtt rate : Rat) (t l r : Int),
      0 ≤ ctx.decr_interval → 0 ≤ ctx.decr_fast_interval →
      ¬ (ctx.cur_bitrate > ctx.min_bitrate ∧
        (ctrunc rtt ≥ ctx.srt_latency.tdiv 3 ∨
          bs > adaptive_bs_th3 (bitrate_update_filters ctx bs rtt rate l r))) →
      ctx.next_bitrate_decr ≤ (bitrate_update ctx bs rtt rate t l r).1.next_bitrate_decr) ∧
    (∀ (st : AimdState) (i : BalancerInput),
      0 ≤ st.incr_interval → st.next_incr ≤ (aimd_step st i).1.next_incr) ∧
    (∀ (cfg : BalancerConfig) (inputs : List BalancerInput),
      List.Chain' (fun a b => a.timestamp ≤ b.timestamp) inputs →
      (∀ i ∈ inputs, 0 ≤ i.timestamp) →
      List.Chain' (fun a b => a ≤ b)
        ((aimd_init cfg :: aimdStates (aimd_init cfg) inputs).map AimdState.next_decr)) ∧
    (∀ (st : FixedState) (i : BalancerInput), (fixed_step st i).1 = st) := by
  refine ⟨adaptive_next_incr_mono, adaptive_next_decr_mono, ?_, ?_, fun st i => rfl⟩
  · intro st i hii
    exact aimd_adjust_incr_mono st i hii
  · intro cfg inputs hmono hts
    refine aimd_states_decr_chain inputs (aimd_init cfg)
      (aimd_init_decr_interval_nonneg cfg) hmono ?_
    intro j hj
    have hj0 : 0 ≤ j.timestamp := hts j (List.mem_of_mem_head? hj)
    have hd0 : 0 ≤ (aimd_init cfg).decr_interval := aimd_init_decr_interval_nonneg cfg
    show (0 : Int) ≤ j.timestamp + (aimd_init cfg).decr_interval
    omega

/-- Witness for C7 (amended): the parts applied at concrete inputs. -/
theorem c7_amended_witness :
    ((0 : Int) ≤ c4_s2_ctx.incr_interval ∧
      c4_s2_ctx.next_bitrate_incr ≤
        (bitrate_update c4_s2_ctx 50 700 2 1000 0 0).1.next_bitrate_incr) ∧
    ((0 : Int) ≤ c5_witness_st.incr_interval ∧
      c5_witness_st.next_incr ≤ (aimd_step c5_witness_st c5_witness_input).1.next_incr) ∧
    (List.Chain' (fun a b => a.timestamp ≤ b.timestamp) [c5_cex_good, c5_cex_bad] ∧
      (∀ i ∈ [c5_cex_good, c5_cex_bad], (0 : Int) ≤ i.timestamp) ∧
      List.Chain' (fun a b => a ≤ b)
        ((aimd_init c2_witness_cfg ::
          aimdStates (aimd_init c2_witness_cfg) [c5_cex_good, c5_cex_bad]).map
          AimdState.next_decr)) :=
  ⟨⟨by decide, c7_amended.1 c4_s2_ctx 50 700 2 1000 0 0 (by decide)⟩,
   ⟨by decide, c7_amended.2.2.1 c5_witness_st c5_witness_input (by decide)⟩,
   ⟨by simp [List.chain'_cons, List.chain'_singleton, c5_cex_good, c5_cex_bad],
    by decide,
    c7_amended.2.2.2.1 c2_witness_cfg [c5_cex_good, c5_cex_bad]
      (by simp [List.chain'_cons, List.chain'_singleton, c5_cex_good, c5_cex_bad])
      (by decide)⟩⟩

/-- Initial adaptive context of the C7 counterexample (500/6000 kbps bounds,
2000 ms latency, default intervals: decr 200 ms, fast 250 ms). -/
def c7_ctx0 : BitrateContext := bitrate_context_init 500000 6000000 2000 1316 30000 100000 500 200

/-- State after the heavy-congestion tick at t = 1000 (rtt 500 ms):
next_bitrate_decr = 1000 + 250. -/
def c7_ctx1 : BitrateContext := (bitrate_update c7_ctx0 0 500 1 1000 0 0).1

/-- State after the emergency tick at t = 1010 (rtt 700 ms):
next_bitrate_decr = 1010 + 200. -/
def c7_ctx2 : BitrateContext := (bitrate_update c7_ctx1 0 700 1 1010 0 0).1

/-- C7 counterexample: with non-decreasing timestamps 1000 ≤ 1010, a heavy
decrease (next_decr ← t + decr_fast_interval = 1250) followed by an emergency
tick (next_decr ← t + decr_interval = 1210) moves next_bitrate_decr
backwards, refuting the claimed monotonicity for the adaptive algorithm. -/
theorem c7_counterexample :
    (1000 : Int) ≤ 1010 ∧
    c7_ctx1.next_bitrate_decr = 1250 ∧
    c7_ctx2.next_bitrate_decr = 1210 ∧
    c7_ctx2.next_bitrate_decr < c7_ctx1.next_bitrate_decr := by
  refine ⟨by decide, by decide, by decide, by decide⟩

/-!
Claim C9.
-/

/-- The acceptance grammar the claim ascribes to parse_bitrate: a decimal
integer — a nonempty digit string — optionally followed by whitespace, whose
value lies within [300 000, 30 000 000]. -/
def c9_claim_ok (s : List Char) : Bool :=
  let ds := s.takeWhile isDigitB
  !ds.isEmpty && (s.drop ds.length).all isSpaceB &&
    decide (MIN_BITRATE ≤ (digitsToNat ds : Int)) &&
    decide ((digitsToNat ds : Int) ≤ ABS_MAX_BITRATE)

/-- The amended acceptance grammar: strtol additionally skips leading
whitespace and accepts one optional sign, and the trailing whitespace
accepted after the digits is only space, tab, newline and carriage return. -/
def c9_amended_ok (s : List Char) : Bool :=
  let s1 := s.dropWhile isSpaceB
  let s2 := (splitSign s1).2
  let ds := s2.takeWhile isDigitB
  let v : Int := (splitSign s1).1 * (digitsToNat ds : Int)
  !ds.isEmpty && (s2.drop ds.length).all isTrailSpaceB &&
    decide (MIN_BITRATE ≤ v) && decide (v ≤ ABS_MAX_BITRATE)

/-- The value of a string matching the amended grammar. -/
def c9_amended_val (s : List Char) : Int :=
  let s1 := s.dropWhile isSpaceB
  (splitSign s1).1 * (digitsToNat ((splitSign s1).2.takeWhile isDigitB) : Int)

/-- A dropWhile that removes everything is the same as an all. -/
theorem dropWhile_isEmpty_iff_all (p : Char → Bool) (l : List Char) :
    (l.dropWhile p).isEmpty = true ↔ l.all p = true := by
  rw [List.isEmpty_iff, List.dropWhile_eq_nil_iff, List.all_eq_true]

/-- C9 (amended): parse_bitrate returns the signed parsed value exactly when
the string is, after optional leading whitespace and an optional single sign,
a nonempty decimal digit string whose signed value lies in
[300 000, 30 000 000], followed only by space/tab/newline/carriage-return
characters; it returns -1 in every other case. -/
theorem c9_amended_characterization (s : List Char) :
    parse_bitrate s = if c9_amended_ok s = true then c9_amended_val s else -1 := by
  by_cases hs : s.isEmpty = true
  · have hnil : s = [] := by rwa [List.isEmpty_iff] at hs
    subst hnil
    rfl
  · by_cases hde : ((splitSign (s.dropWhile isSpaceB)).2.takeWhile isDigitB).isEmpty = true
    · have h1 : strtol10 s = none := by
        simp only [strtol10]
        rw [if_pos hde]
      have h2 : ¬ c9_amended_ok s = true := by
        simp only [c9_amended_ok, Bool.and_eq_true, Bool.not_eq_true', decide_eq_true_iff]
        rintro ⟨⟨⟨hne, -⟩, -⟩, -⟩
        rw [hde] at hne
        cases hne
      have hpl : parse_long s MIN_BITRATE ABS_MAX_BITRATE = none := by
        simp only [parse_long]
        rw [if_neg hs, h1]
      simp only [parse_bitrate]
      rw [hpl, if_neg h2]
    · have h1 : strtol10 s =
          some ((splitSign (s.dropWhile isSpaceB)).1 *
              (digitsToNat ((splitSign (s.dropWhile isSpaceB)).2.takeWhile isDigitB) : Int),
            (splitSign (s.dropWhile isSpaceB)).2.drop
              ((splitSign (s.dropWhile isSpaceB)).2.takeWhile isDigitB).length) := by
        simp only [strtol10]
        rw [if_neg hde]
      by_cases hrest : (((splitSign (s.dropWhile isSpaceB)).2.drop
          ((splitSign (s.dropWhile isSpaceB)).2.takeWhile isDigitB).length).dropWhile
            isTrailSpaceB).isEmpty = true
      · by_cases hrange : (splitSign (s.dropWhile isSpaceB)).1 *
            (digitsToNat ((splitSign (s.dropWhile isSpaceB)).2.takeWhile isDigitB) : Int) <
              MIN_BITRATE ∨
            (splitSign (s.dropWhile isSpaceB)).1 *
              (digitsToNat ((splitSign (s.dropWhile isSpaceB)).2.takeWhile isDigitB) : Int) >
              ABS_MAX_BITRATE
        · have h2 : ¬ c9_amended_ok s = true := by
            simp only [c9_amended_ok, Bool.and_eq_true, Bool.not_eq_true', decide_eq_true_iff]
            rintro ⟨⟨⟨-, -⟩, hlo⟩, hhi⟩
            rcases hrange with h | h
            · exact absurd hlo (not_le.2 h)
            · exact absurd hhi (not_le.2 h)
          have hpl : parse_long s MIN_BITRATE ABS_MAX_BITRATE = none := by
            simp only [parse_long]
            rw [if_neg hs, h1]
            show (if (((splitSign (s.dropWhile isSpaceB)).2.drop
                ((splitSign (s.dropWhile isSpaceB)).2.takeWhile isDigitB).length).dropWhile
                  isTrailSpaceB).isEmpty = true then _ else _) = none
            rw [if_pos hrest, if_pos hrange]
          simp only [parse_bitrate]
          rw [hpl, if_neg h2]
        · have h2 : c9_amended_ok s = true := by
            push_neg at hrange
            simp only [c9_amended_ok, Bool.and_eq_true, Bool.not_eq_true', decide_eq_true_iff]
            refine ⟨⟨⟨Bool.eq_false_iff.mpr hde, ?_⟩, hrange.1⟩, hrange.2⟩
            rwa [← dropWhile_isEmpty_iff_all]
          have hpl : parse_long s MIN_BITRATE ABS_MAX_BITRATE =
              some ((splitSign (s.dropWhile isSpaceB)).1 *
                (digitsToNat ((splitSign (s.dropWhile isSpaceB)).2.takeWhile isDigitB) : Int)) := by
            simp only [parse_long]
            rw [if_neg hs, h1]
            show (if (((splitSign (s.dropWhile isSpaceB)).2.drop
                ((splitSign (s.dropWhile isSpaceB)).2.takeWhile isDigitB).length).dropWhile
                  isTrailSpaceB).isEmpty = true then _ else _) = _
            rw [if_pos hrest, if_neg hrange]
          simp only [parse_bitrate]
          rw [hpl, if_pos h2]
          rfl
      · have h2 : ¬ c9_amended_ok s = true := by
          simp only [c9_amended_ok, Bool.and_eq_true, Bool.not_eq_true', decide_eq_true_iff]
          rintro ⟨⟨⟨-, hall⟩, -⟩, -⟩
          rw [← dropWhile_isEmpty_iff_all] at hall
          exact hrest hall
        have hpl : parse_long s MIN_BITRATE ABS_MAX_BITRATE = none := by
          simp only [parse_long]
          rw [if_neg hs, h1]
          show (if (((splitSign (s.dropWhile isSpaceB)).2.drop
              ((splitSign (s.dropWhile isSpaceB)).2.takeWhile isDigitB).length).dropWhile
                isTrailSpaceB).isEmpty = true then _ else _) = none
          rw [if_neg hrest]
        simp only [parse_bitrate]
        rw [hpl, if_neg h2]

/-- C9 counterexample: parse_bitrate accepts strings outside the claim's
grammar and rejects strings inside it. The leading-space string " 300000"
parses to 300000 (strtol skips leading whitespace) although the claimed
grammar rejects it; the string "300000" followed by a vertical tab matches
the claimed grammar (digits plus whitespace, value in range) yet parse_long
rejects it because its trailing-whitespace loop does not skip vertical tab. -/
theorem c9_counterexample :
    parse_bitrate (" 300000".toList) = 300000 ∧
    c9_claim_ok (" 300000".toList) = false ∧
    parse_bitrate ("300000\x0b".toList) = -1 ∧
    c9_claim_ok ("300000\x0b".toList) = true := by
  refine ⟨by decide, by decide, by decide, by decide⟩

end Ceracoder
